import Mathlib

/-!
Shallow embedding of the Ethereum Ledger Settlement Engine
(`crates/interledger-settlement-engines/src/engines/ethereum_ledger/`).

Bytes are modelled as `Nat` (values < 256), addresses as 20-byte lists,
`U256` values as `Nat`.  The SHA-256 hash of the idempotency fingerprint is
abstracted into a parameter `hashFn`; the account-id type and its `FromStr`
parser are abstracted into parameters as the Rust engine is generic over
them.  External effects (chain RPC, address-store writes, notifier) are
driven by explicit oracles and recorded as an event trace.
-/

namespace EthEngine

/-- A 20-byte Ethereum address, modelled as its byte list. -/
abbrev Address := List Nat

/-- `(ethereum address, optional ERC-20 token address)` as stored per account
(`types.rs`, `type Addresses`). -/
abbrev Addresses := Address × Option Address

/-- `ethereum_tx_sign::RawTransaction` restricted to the fields the engine
sets (`helpers.rs::make_tx`). -/
structure RawTransaction where
  toAddr : Option Address
  nonce : Nat
  data : List Nat
  gas : Nat
  gasPrice : Nat
  value : Nat
deriving DecidableEq

/-- An `ethabi::Token` as used by `make_tx`: an address or a uint256. -/
inductive Token where
  | address (a : Address)
  | uint (v : Nat)

/-- Big-endian 32-byte encoding of a `U256` value (ethabi's uint encoding). -/
def u256be (v : Nat) : List Nat :=
  (List.range 32).map (fun i => v / 256 ^ (31 - i) % 256)

/-- ABI head encoding of one static token: addresses are left-padded to 32
bytes, uints are 32-byte big-endian. -/
def encodeToken : Token → List Nat
  | .address a => List.replicate (32 - a.length) 0 ++ a
  | .uint v => u256be v

/-- `ethabi::encode` for a list of static tokens: concatenation of the 32-byte
head encodings. -/
def ethabiEncode (ts : List Token) : List Nat :=
  (ts.map encodeToken).flatten

/-- Value of one hexadecimal digit character. -/
def hexVal (c : Char) : Nat :=
  if 48 ≤ c.toNat ∧ c.toNat ≤ 57 then c.toNat - 48
  else if 97 ≤ c.toNat ∧ c.toNat ≤ 102 then c.toNat - 87
  else if 65 ≤ c.toNat ∧ c.toNat ≤ 70 then c.toNat - 55
  else 0

/-- Decode pairs of hex digit characters into bytes (`hex::decode`). -/
def hexPairs : List Char → List Nat
  | c1 :: c2 :: rest => (hexVal c1 * 16 + hexVal c2) :: hexPairs rest
  | _ => []

/-- `hex::decode` of a hex string into its byte list. -/
def hexDecode (s : String) : List Nat :=
  hexPairs s.data

/-- `helpers.rs::make_tx`: build the unsigned transaction.  With a token
address it is an ERC-20 `transfer` call to the token contract (selector
`a9059cbb`, ABI-encoded `(to, value)`, gas 70000, gas price 20000, value 0);
without, a native transfer (empty data, gas 21000, gas price 20000). -/
def make_tx (toAddr : Address) (value : Nat) (nonce : Nat)
    (token_address : Option Address) : RawTransaction :=
  match token_address with
  | some tokenAddress =>
      { toAddr := some tokenAddress
        nonce := nonce
        data := hexDecode "a9059cbb" ++ ethabiEncode [.address toAddr, .uint value]
        gas := 70000
        gasPrice := 20000
        value := 0 }
  | none =>
      { toAddr := some toAddr
        nonce := nonce
        data := []
        gas := 21000
        gasPrice := 20000
        value := value }

/-- `pad32` of a 20-byte address: twelve zero bytes then the address. -/
def pad32 (a : Address) : List Nat :=
  List.replicate 12 0 ++ a

/-- The ERC-20 token-contract address from the repository's own
`test_erc20_make_tx` test vector. -/
def addrC : Address := hexDecode "c92be489639a9c61f517bd3b955840fa19bc9b7c"

/-- The decimal digit character for `k < 10`. -/
def digitChar (k : Nat) : Char := Char.ofNat (48 + k)

/-- Fuel-indexed decimal rendering of a natural number, most significant
digit first; the fuel keeps the recursion structural and `decRepr` always
supplies enough of it. -/
def decReprAux : Nat → Nat → List Char
  | 0, _ => []
  | fuel + 1, n =>
    if n < 10 then [digitChar n]
    else decReprAux fuel (n / 10) ++ [digitChar (n % 10)]

/-- Decimal rendering of a natural number (Rust's rendering of a `u8` or
`u64` value). -/
def decRepr (n : Nat) : List Char := decReprAux (n + 1) n

/-- The comma-separated inner part of Rust's `Debug` rendering of a byte
vector, e.g. `1, 2, 3`. -/
def renderInner : List Nat → List Char
  | [] => []
  | [n] => decRepr n
  | n :: rest => decRepr n ++ ',' :: ' ' :: renderInner rest

/-- Rust's `Debug` rendering of the `Vec<u8>` request body, e.g.
`[1, 2, 3]`, as hashed by `create_account`'s
`format!("\x7b\x7d\x7b:?\x7d", account_id, body)` fingerprint. -/
def debugVecU8 (b : List Nat) : String := ⟨'[' :: (renderInner b ++ [']'])⟩

/-- Rust's `Debug` rendering of a `String`: wrapped in quotes (the error
strings the engine produces need no escaping). -/
def debugString (s : String) : String := "\"" ++ s ++ "\""

/-- Modelled from the spec: the debug-serialization of the `send_money`
request body.  The `SettlementData` struct is declared in the
`interledger-settlement` crate, whose type definitions are not among the
sources here; the spec fixes the body to `\x7b amount: u64 \x7d` with
Rust's derived `Debug` rendering, `SettlementData \x7b amount: N \x7d`. -/
def debugSettlementData (amount : Nat) : String :=
  "SettlementData \x7b amount: " ++ String.mk (decRepr amount) ++ " \x7d"

/-- One hexadecimal digit character, lowercase. -/
def hexDigitChar (k : Nat) : Char :=
  if k < 10 then Char.ofNat (48 + k) else Char.ofNat (87 + k)

/-- One byte as two lowercase hexadecimal digit characters. -/
def byteHexChars (b : Nat) : List Char :=
  [hexDigitChar (b / 16 % 16), hexDigitChar (b % 16)]

/-- Rust's `Debug` rendering of an `H160` address: `0x` then 40 hex
characters. -/
def debugAddress (a : Address) : String :=
  "0x" ++ String.mk (a.map byteHexChars).flatten

/-- Rust's `Debug` rendering of an `Addresses` pair, e.g.
`(0x…, None)` or `(0x…, Some(0x…))`. -/
def debugAddresses (d : Addresses) : String :=
  "(" ++ debugAddress d.1 ++ ", " ++
    (match d.2 with
     | none => "None"
     | some t => "Some(" ++ debugAddress t ++ ")") ++ ")"

/-- The success/error/panic outcome of one endpoint call.  `ok` and `err`
mirror the `Item` and `Error` channels of the returned
`Future<Item = Response<String>, Error = Response<String>>`; `panic`
models an `unwrap()` of a failed chain call. -/
inductive Outcome where
  | ok (status : Nat) (body : String)
  | err (status : Nat) (body : String)
  | panic
deriving DecidableEq

/-- Observable calls the engine makes on its collaborators, in order. -/
inductive Event (A Hh : Type) where
  | idemLookup (key : Option String)
  | idemSave (key : Option String) (hash : Hh) (status : Nat) (body : String)
  | addrLoad (id : A)
  | addrSave (id : A) (data : Addresses)
  | chainNonce
  | signCall (tx : RawTransaction) (chainId : Nat)
  | chainBroadcast (tx : RawTransaction) (chainId : Nat)
  | notifierPost (accountId : String) (body : String)
deriving DecidableEq

/-- Engine construction parameters consulted by the modelled code paths:
the account-id parser (`A::AccountId::from_str`), its `Display` rendering,
the SHA-256 fingerprint hash (abstracted into a function to an arbitrary
hash type), and the configured `chain_id`. -/
structure EngineParams (A Hh : Type) where
  parseId : String → Option A
  showId : A → String
  hashFn : String → Hh
  chainId : Nat

/-- The durable state the engine can observe or change: the idempotency
store (key to status, body and input hash) and the address store. -/
structure EngineState (A Hh : Type) where
  idem : String → Option (Nat × String × Hh)
  addr : A → Option Addresses

/-- Oracles for the external calls of one request: the chain nonce fetch
(`none` is an RPC failure), broadcast-and-confirm success, and
address-store save success. -/
structure World where
  nonceRes : Option Nat
  broadcastOk : Bool
  addrSaveOk : Bool

/-- Result of one endpoint call: the outcome, the resulting durable state,
and the trace of collaborator calls in order. -/
structure RunResult (A Hh : Type) where
  outcome : Outcome
  state : EngineState A Hh
  events : List (Event A Hh)

/-- The three answers of `check_idempotency`: proceed to WORK (`Ok(None)`),
replay a stored success (`Ok(Some)`), or answer an error response (`Err`:
both the 409 conflict and a stored error). -/
inductive IdemCheck where
  | proceed
  | replay (status : Nat) (body : String)
  | errResp (status : Nat) (body : String)

/-- `StatusCode::is_success()`. -/
def statusIsSuccess (st : Nat) : Bool := 200 ≤ st && st < 300

/-- `eth_engine.rs::check_idempotency`: load the idempotency record for the
key (a `None` key loads nothing); on a hash mismatch answer the 409
conflict without touching the record; on a match replay a stored success on
the success channel and a stored error on the error channel. -/
def check_idempotency {A Hh : Type} [DecidableEq Hh] (s : EngineState A Hh)
    (key : Option String) (inputHash : Hh) : IdemCheck :=
  match key.bind s.idem with
  | none => .proceed
  | some (st, bd, h) =>
    if h ≠ inputHash then
      .errResp 409 "Provided idempotency key is tied to other input"
    else if statusIsSuccess st then .replay st bd
    else .errResp st bd

/-- `store.save_idempotent_data`, spawned by the engine on every recorded
outcome: writes the record when a key is present; a `None` key writes
nothing. -/
def saveIdem {A Hh : Type} (s : EngineState A Hh) (key : Option String)
    (h : Hh) (st : Nat) (bd : String) :
    EngineState A Hh × List (Event A Hh) :=
  match key with
  | none => (s, [.idemSave none h st bd])
  | some k =>
      ({ s with idem := fun k' => if k' = k then some (st, bd, h) else s.idem k' },
       [.idemSave (some k) h st bd])

/-- Result of `load_account`: the parsed id and its addresses, or the
error string. -/
inductive LoadResult (A : Type) where
  | ok (id : A) (addrs : Addresses)
  | fail (msg : String)

/-- `eth_engine.rs::load_account`: parse the account id
(`"Unable to parse account"` on failure) and load its addresses from the
store (`"Error getting account: <id>"` on failure). -/
def load_account {A Hh : Type} (p : EngineParams A Hh) (s : EngineState A Hh)
    (account_id : String) : LoadResult A × List (Event A Hh) :=
  match p.parseId account_id with
  | none => (.fail "Unable to parse account", [])
  | some id =>
    match s.addr id with
    | none => (.fail ("Error getting account: " ++ p.showId id), [.addrLoad id])
    | some a => (.ok id a, [.addrLoad id])

/-- `eth_engine.rs::settle_to`: fetch the signer's pending nonce (an
`unwrap()`, so an RPC failure panics, modelled as `none`), build the
transaction, sign it with the literal chain id `1` (not `self.chain_id`),
then broadcast and await confirmation (again an `unwrap()`).  The spec's
notifier call is absent: that block is commented out in the source.
Returns `none` on panic, with the events that happened before it. -/
def settle_to {A Hh : Type} (_p : EngineParams A Hh) (w : World)
    (toA : Address) (amount : Nat) (token_address : Option Address) :
    Option Unit × List (Event A Hh) :=
  match w.nonceRes with
  | none => (none, [.chainNonce])
  | some nonce =>
    let tx := make_tx toA amount nonce token_address
    if w.broadcastOk then
      (some (), [.chainNonce, .signCall tx 1, .chainBroadcast tx 1])
    else
      (none, [.chainNonce, .signCall tx 1, .chainBroadcast tx 1])

/-- `eth_engine.rs::send_money` (the `POST /accounts/:id/settlement`
endpoint): fingerprint the request as
`account_id ‖ debug(SettlementData)`, run the idempotency check, then load
the account, settle on chain and record the outcome.  The source's 502
branch for a `settle_to` error is dead code — `settle_to` panics on chain
failure instead of resolving its future to an error — so a chain failure
surfaces as `panic` and records nothing. -/
def send_money {A Hh : Type} [DecidableEq Hh] (p : EngineParams A Hh)
    (w : World) (s : EngineState A Hh) (account_id : String) (amount : Nat)
    (key : Option String) : RunResult A Hh :=
  let input_hash := p.hashFn (account_id ++ debugSettlementData amount)
  match check_idempotency s key input_hash with
  | .errResp st bd => ⟨.err st bd, s, [.idemLookup key]⟩
  | .replay st bd => ⟨.ok st bd, s, [.idemLookup key]⟩
  | .proceed =>
    match load_account p s account_id with
    | (.fail msg, ev) =>
        let emsg := "Error loading account " ++ debugString msg
        let res := saveIdem s key input_hash 400 emsg
        ⟨.err 400 emsg, res.1, .idemLookup key :: ev ++ res.2⟩
    | (.ok _id addrs, ev) =>
        match settle_to p w addrs.1 amount addrs.2 with
        | (none, ev') => ⟨.panic, s, .idemLookup key :: ev ++ ev'⟩
        | (some _, ev') =>
            let res := saveIdem s key input_hash 200 "OK"
            ⟨.ok 200 "OK", res.1, .idemLookup key :: ev ++ ev' ++ res.2⟩

/-- `eth_engine.rs::create_account` (the `POST /accounts/:id` endpoint):
split the raw body into addresses by its byte length (20 = own address
only, 40 = own then token address; any other length answers
`502 "INVALID PAYLOAD LENGTH"` before the idempotency lookup), fingerprint
the request as `account_id ‖ debug(body)`, run the idempotency check, then
parse the id, save the addresses and record the outcome. -/
def create_account {A Hh : Type} [DecidableEq A] [DecidableEq Hh]
    (p : EngineParams A Hh) (w : World) (s : EngineState A Hh)
    (account_id : String) (body : List Nat) (key : Option String) :
    RunResult A Hh :=
  let work := fun (data : Addresses) =>
    let input_hash := p.hashFn (account_id ++ debugVecU8 body)
    match check_idempotency s key input_hash with
    | .errResp st bd => ⟨.err st bd, s, [.idemLookup key]⟩
    | .replay st bd => ⟨.ok st bd, s, [.idemLookup key]⟩
    | .proceed =>
      match p.parseId account_id with
      | none =>
          let msg := "Unable to parse account"
          let res := saveIdem s key input_hash 400 msg
          ⟨.err 400 msg, res.1, .idemLookup key :: res.2⟩
      | some id =>
          if w.addrSaveOk then
            let s1 : EngineState A Hh :=
              { s with addr := fun i => if i = id then some data else s.addr i }
            let res := saveIdem s1 key input_hash 201 "CREATED"
            ⟨.ok 201 "CREATED", res.1, .idemLookup key :: .addrSave id data :: res.2⟩
          else
            let msg := "Error creating account: " ++ p.showId id ++ ", "
              ++ debugAddresses data
            let res := saveIdem s key input_hash 400 msg
            ⟨.err 400 msg, res.1, .idemLookup key :: .addrSave id data :: res.2⟩
  if body.length = 20 then work (body, none)
  else if body.length = 40 then work (body.take 20, some (body.drop 20))
  else ⟨.err 502 "INVALID PAYLOAD LENGTH", s, []⟩

/-- `eth_engine.rs::receive_message` (the `POST /accounts/:id/messages`
endpoint): the body and the idempotency key are ignored; the account is
loaded to validate it exists, then `200 "OK"`.  No idempotency lookup or
save happens. -/
def receive_message {A Hh : Type} (p : EngineParams A Hh)
    (s : EngineState A Hh) (account_id : String) (_body : List Nat)
    (_idempotency_key : Option String) : RunResult A Hh :=
  match load_account p s account_id with
  | (.fail msg, ev) =>
      ⟨.err 400 ("Error loading account " ++ debugString msg), s, ev⟩
  | (.ok _ _, ev) => ⟨.ok 200 "OK", s, ev⟩

/-- The response the engine replays for a stored record: a stored success
on the success channel, a stored error on the error channel. -/
def replayOutcome (st : Nat) (bd : String) : Outcome :=
  if statusIsSuccess st then .ok st bd else .err st bd

/-- Whether an event touches the idempotency store. -/
def isIdemEvent {A Hh : Type} : Event A Hh → Bool
  | .idemLookup _ => true
  | .idemSave _ _ _ _ => true
  | _ => false

/-- Whether an event is a notifier call. -/
def isNotifierEvent {A Hh : Type} : Event A Hh → Bool
  | .notifierPost _ _ => true
  | _ => false

/-- Decimal account-id parser: the `u64::from_str` instantiation the
repository's tests use for account ids. -/
def parseDecNat (s : String) : Option Nat :=
  if s.data ≠ [] ∧ s.data.all (fun c => 48 ≤ c.toNat && c.toNat ≤ 57) then
    some (s.data.foldl (fun a c => a * 10 + (c.toNat - 48)) 0)
  else none

/-- Concrete engine parameters for witnesses: `Nat` account ids, decimal
rendering, the identity fingerprint function (injective, standing in for
SHA-256), configured chain id 1. -/
def natParams : EngineParams Nat String :=
  { parseId := parseDecNat
    showId := fun n => String.mk (decRepr n)
    hashFn := id
    chainId := 1 }

/-- Empty concrete store state for witnesses. -/
def sEmpty : EngineState Nat String := ⟨fun _ => none, fun _ => none⟩

/-- Concrete oracle with every external call succeeding (nonce 3). -/
def wOk : World := ⟨some 3, true, true⟩

/-- Concrete oracle whose chain nonce fetch fails. -/
def wNonceFail : World := ⟨none, true, true⟩

/-- Concrete oracle whose address-store save fails. -/
def wSaveFail : World := ⟨some 3, true, false⟩

/-- A concrete 20-byte create-account body. -/
def b20 : List Nat := List.replicate 20 7

/-- Concrete store state holding account `0` with address `b20` and no
token address (and no idempotency records). -/
def sAcct : EngineState Nat String :=
  { idem := fun _ => none
    addr := fun i => if i = 0 then some (b20, none) else none }

/-- Concrete engine parameters with configured chain id 5 (used to observe
that `settle_to` still signs with chain id 1). -/
def params5 : EngineParams Nat String := { natParams with chainId := 5 }

/-- The address pair `create_account` derives from a length-valid body:
20 bytes are the own address, 40 bytes are own then token address. -/
def createBodyData (b : List Nat) : Addresses :=
  if b.length = 20 then (b, none) else (b.take 20, some (b.drop 20))

/-- A run records outcome `(st, bd)` under key `k` with hash `h` if every
returned response equals the record stored for `k`. -/
def recordsOutcome {A Hh : Type} (r : RunResult A Hh) (k : String) (h : Hh) :
    Prop :=
  ∀ st bd, (r.outcome = .ok st bd ∨ r.outcome = .err st bd) →
    r.state.idem k = some (st, bd, h)

/-- Concrete oracle whose broadcast-and-confirm call fails. -/
def wBroadcastFail : World := ⟨some 3, false, true⟩

/-- The native transfer `settle_to` builds for account `0` of `sAcct`,
amount 100, nonce 3. -/
def txNative : RawTransaction := make_tx b20 100 3 none

/-! ### Properties of the fingerprint rendering

`create_account` hashes `account_id ‖ debug(body)`.  The lemmas below show
that for a fixed hash preimage the rendered `Vec<u8>` part is determined:
digits contain neither `[` nor `,`, the opening bracket of the rendering is
its only one, so equal preimages force equal renderings, and the comma
count of the rendering determines the body length. -/

theorem digitChar_ne (k : Nat) (hk : k < 10) :
    digitChar k ≠ '[' ∧ digitChar k ≠ ',' := by
  revert hk
  revert k
  decide

theorem decReprAux_chars (fuel : Nat) : ∀ (n : Nat),
    ∀ c ∈ decReprAux fuel n, c ≠ '[' ∧ c ≠ ',' := by
  induction fuel with
  | zero => intro n c hc; simp [decReprAux] at hc
  | succ fuel ih =>
    intro n c hc
    by_cases h : n < 10
    · simp only [decReprAux, if_pos h, List.mem_singleton] at hc
      subst hc
      exact digitChar_ne n h
    · simp only [decReprAux, if_neg h, List.mem_append, List.mem_singleton] at hc
      rcases hc with hc | hc
      · exact ih _ c hc
      · subst hc
        exact digitChar_ne _ (Nat.mod_lt _ (by omega))

theorem decRepr_chars (n : Nat) : ∀ c ∈ decRepr n, c ≠ '[' ∧ c ≠ ',' :=
  decReprAux_chars (n + 1) n

theorem decRepr_ne_nil (n : Nat) : decRepr n ≠ [] := by
  show decReprAux (n + 1) n ≠ []
  by_cases h : n < 10
  · simp [decReprAux, if_pos h]
  · simp [decReprAux, if_neg h]

theorem renderInner_chars (b : List Nat) :
    ∀ c ∈ renderInner b, c ≠ '[' := by
  induction b with
  | nil => intro c hc; simp [renderInner] at hc
  | cons n rest ih =>
    cases rest with
    | nil => intro c hc; exact (decRepr_chars n c hc).1
    | cons m rest' =>
      intro c hc
      simp only [renderInner, List.mem_append, List.mem_cons] at hc
      rcases hc with hc | hc | hc | hc
      · exact (decRepr_chars n c hc).1
      · subst hc; decide
      · subst hc; decide
      · exact ih c hc

theorem count_comma_decRepr (n : Nat) : (decRepr n).count ',' = 0 := by
  rw [List.count_eq_zero]
  intro hc
  exact (decRepr_chars n ',' hc).2 rfl

theorem count_comma_renderInner (b : List Nat) (hb : b ≠ []) :
    (renderInner b).count ',' = b.length - 1 := by
  induction b with
  | nil => exact absurd rfl hb
  | cons n rest ih =>
    cases rest with
    | nil => simp [renderInner, count_comma_decRepr]
    | cons m rest' =>
      have ih' := ih (by simp)
      simp only [renderInner, List.count_append, List.count_cons,
        count_comma_decRepr] at ih' ⊢
      simp only [ih']
      simp

theorem renderInner_nil_iff (b : List Nat) : renderInner b = [] ↔ b = [] := by
  constructor
  · intro h
    cases b with
    | nil => rfl
    | cons n rest =>
      cases rest with
      | nil => exact absurd h (decRepr_ne_nil n)
      | cons m rest' =>
        simp only [renderInner, List.append_eq_nil] at h
        exact absurd h.1 (decRepr_ne_nil n)
  · intro h; subst h; rfl

theorem renderInner_length {b1 b2 : List Nat} (hne : b1 ≠ [])
    (h : renderInner b1 = renderInner b2) : b1.length = b2.length := by
  have hne2 : b2 ≠ [] := by
    intro hb
    subst hb
    have hnil : renderInner b1 = [] := by simpa [renderInner] using h
    exact hne ((renderInner_nil_iff b1).mp hnil)
  have h1 := count_comma_renderInner b1 hne
  have h2 := count_comma_renderInner b2 hne2
  rw [h, h2] at h1
  have l1 : 0 < b1.length := List.length_pos.mpr hne
  have l2 : 0 < b2.length := List.length_pos.mpr hne2
  omega

theorem bracket_append_eq {u1 u2 t1 t2 : List Char}
    (h : u1 ++ ('[' :: t1) = u2 ++ ('[' :: t2))
    (h1 : '[' ∉ t1) (h2 : '[' ∉ t2) : u1 = u2 ∧ t1 = t2 := by
  rcases List.append_eq_append_iff.mp h with ⟨m, hm1, hm2⟩ | ⟨m, hm1, hm2⟩
  · cases m with
    | nil =>
      simp only [List.append_nil] at hm1
      simp only [List.nil_append, List.cons.injEq] at hm2
      exact ⟨hm1.symm, hm2.2⟩
    | cons c m' =>
      exfalso
      simp only [List.cons_append, List.cons.injEq] at hm2
      apply h1
      rw [hm2.2]
      simp
  · cases m with
    | nil =>
      simp only [List.append_nil] at hm1
      simp only [List.nil_append, List.cons.injEq] at hm2
      exact ⟨hm1, hm2.2.symm⟩
    | cons c m' =>
      exfalso
      simp only [List.cons_append, List.cons.injEq] at hm2
      apply h2
      rw [hm2.2]
      simp

/-- Equality of `create_account` fingerprint preimages forces equality of
the rendered bodies (and hence of the account ids). -/
theorem fingerprint_inj {a1 a2 : String} {b1 b2 : List Nat}
    (h : a1 ++ debugVecU8 b1 = a2 ++ debugVecU8 b2) :
    a1 = a2 ∧ renderInner b1 = renderInner b2 := by
  have hd : a1.data ++ ('[' :: (renderInner b1 ++ [']'])) =
      a2.data ++ ('[' :: (renderInner b2 ++ [']'])) := by
    have hdata := congrArg String.data h
    simpa only [String.data_append, debugVecU8] using hdata
  have h1 : '[' ∉ renderInner b1 ++ [']'] := by
    intro hc
    rcases List.mem_append.mp hc with hc | hc
    · exact renderInner_chars b1 _ hc rfl
    · simp at hc
  have h2 : '[' ∉ renderInner b2 ++ [']'] := by
    intro hc
    rcases List.mem_append.mp hc with hc | hc
    · exact renderInner_chars b2 _ hc rfl
    · simp at hc
  obtain ⟨hu, ht⟩ := bracket_append_eq hd h1 h2
  exact ⟨String.ext hu, List.append_cancel_right ht⟩

/-! ### Behavior of the idempotency layer -/

theorem check_absent {A Hh : Type} [DecidableEq Hh] (s : EngineState A Hh)
    (k : String) (h : Hh) (hs : s.idem k = none) :
    check_idempotency s (some k) h = .proceed := by
  simp [check_idempotency, hs]

theorem check_present_same {A Hh : Type} [DecidableEq Hh]
    (s : EngineState A Hh) (k : String) (st : Nat) (bd : String) (h : Hh)
    (hs : s.idem k = some (st, bd, h)) :
    check_idempotency s (some k) h =
      if statusIsSuccess st then .replay st bd else .errResp st bd := by
  simp [check_idempotency, hs]

theorem check_present_diff {A Hh : Type} [DecidableEq Hh]
    (s : EngineState A Hh) (k : String) (st : Nat) (bd : String) (h h' : Hh)
    (hs : s.idem k = some (st, bd, h)) (hne : h' ≠ h) :
    check_idempotency s (some k) h' =
      .errResp 409 "Provided idempotency key is tied to other input" := by
  simp [check_idempotency, hs, Ne.symm hne]

theorem saveIdem_self {A Hh : Type} (s : EngineState A Hh) (k : String)
    (h : Hh) (st : Nat) (bd : String) :
    (saveIdem s (some k) h st bd).1.idem k = some (st, bd, h) := by
  simp [saveIdem]

/-! ### Characterizations of the endpoint runs -/

theorem invalid_payload_guard {A Hh : Type} [DecidableEq A] [DecidableEq Hh]
    (p : EngineParams A Hh) (w : World) (s : EngineState A Hh)
    (a k : String) (b : List Nat) (h20 : b.length ≠ 20)
    (h40 : b.length ≠ 40) :
    create_account p w s a b (some k) =
      ⟨.err 502 "INVALID PAYLOAD LENGTH", s, []⟩ := by
  simp only [create_account, if_neg h20, if_neg h40]

theorem send_money_replay {A Hh : Type} [DecidableEq Hh]
    (p : EngineParams A Hh) (w : World) (s : EngineState A Hh) (a : String)
    (amt : Nat) (k : String) (st : Nat) (bd : String) (h : Hh)
    (hs : s.idem k = some (st, bd, h))
    (hh : p.hashFn (a ++ debugSettlementData amt) = h) :
    send_money p w s a amt (some k) =
      ⟨replayOutcome st bd, s, [.idemLookup (some k)]⟩ := by
  simp only [send_money, hh, check_present_same s k st bd h hs]
  by_cases hsucc : statusIsSuccess st <;>
    simp [hsucc, replayOutcome]

theorem send_money_conflict {A Hh : Type} [DecidableEq Hh]
    (p : EngineParams A Hh) (w : World) (s : EngineState A Hh) (a : String)
    (amt : Nat) (k : String) (st : Nat) (bd : String) (h : Hh)
    (hs : s.idem k = some (st, bd, h))
    (hh : p.hashFn (a ++ debugSettlementData amt) ≠ h) :
    send_money p w s a amt (some k) =
      ⟨.err 409 "Provided idempotency key is tied to other input", s,
        [.idemLookup (some k)]⟩ := by
  simp [send_money, check_present_diff s k st bd h _ hs hh]

theorem create_account_replay {A Hh : Type} [DecidableEq A] [DecidableEq Hh]
    (p : EngineParams A Hh) (w : World) (s : EngineState A Hh) (a : String)
    (b : List Nat) (k : String) (st : Nat) (bd : String) (h : Hh)
    (hlen : b.length = 20 ∨ b.length = 40)
    (hs : s.idem k = some (st, bd, h))
    (hh : p.hashFn (a ++ debugVecU8 b) = h) :
    create_account p w s a b (some k) =
      ⟨replayOutcome st bd, s, [.idemLookup (some k)]⟩ := by
  rcases hlen with hl | hl
  · simp only [create_account, if_pos hl, hh, check_present_same s k st bd h hs]
    by_cases hsucc : statusIsSuccess st <;> simp [hsucc, replayOutcome]
  · have h20 : ¬ b.length = 20 := by omega
    simp only [create_account, if_neg h20, if_pos hl, hh,
      check_present_same s k st bd h hs]
    by_cases hsucc : statusIsSuccess st <;> simp [hsucc, replayOutcome]

theorem create_account_conflict {A Hh : Type} [DecidableEq A] [DecidableEq Hh]
    (p : EngineParams A Hh) (w : World) (s : EngineState A Hh) (a : String)
    (b : List Nat) (k : String) (st : Nat) (bd : String) (h : Hh)
    (hlen : b.length = 20 ∨ b.length = 40)
    (hs : s.idem k = some (st, bd, h))
    (hh : p.hashFn (a ++ debugVecU8 b) ≠ h) :
    create_account p w s a b (some k) =
      ⟨.err 409 "Provided idempotency key is tied to other input", s,
        [.idemLookup (some k)]⟩ := by
  rcases hlen with hl | hl
  · simp [create_account, if_pos hl, check_present_diff s k st bd h _ hs hh]
  · have h20 : ¬ b.length = 20 := by omega
    simp [create_account, if_neg h20, if_pos hl,
      check_present_diff s k st bd h _ hs hh]

theorem send_money_record_hash {A Hh : Type} [DecidableEq Hh]
    (p : EngineParams A Hh) (w : World) (s : EngineState A Hh) (a : String)
    (amt : Nat) (k : String) (st : Nat) (bd : String) (h : Hh)
    (hs : s.idem k = none)
    (hrec : (send_money p w s a amt (some k)).state.idem k = some (st, bd, h)) :
    h = p.hashFn (a ++ debugSettlementData amt) := by
  simp only [send_money, check_absent s k _ hs] at hrec
  rcases hla : load_account p s a with ⟨lr, ev⟩
  rw [hla] at hrec
  cases lr with
  | fail msg =>
    simp [saveIdem] at hrec
    exact hrec.2.2.symm
  | ok id addrs =>
    dsimp only at hrec
    rcases hst : settle_to p w addrs.1 amt addrs.2 with ⟨o, ev'⟩
    rw [hst] at hrec
    cases o with
    | none =>
      simp at hrec
      rw [hs] at hrec
      cases hrec
    | some u =>
      simp [saveIdem] at hrec
      exact hrec.2.2.symm

theorem create_account_record_hash {A Hh : Type} [DecidableEq A]
    [DecidableEq Hh] (p : EngineParams A Hh) (w : World)
    (s : EngineState A Hh) (a : String) (b : List Nat) (k : String)
    (st : Nat) (bd : String) (h : Hh) (hs : s.idem k = none)
    (hrec : (create_account p w s a b (some k)).state.idem k = some (st, bd, h)) :
    h = p.hashFn (a ++ debugVecU8 b) ∧ (b.length = 20 ∨ b.length = 40) := by
  by_cases h20 : b.length = 20
  · refine ⟨?_, Or.inl h20⟩
    simp only [create_account, if_pos h20, check_absent s k _ hs] at hrec
    cases hpi : p.parseId a with
    | none =>
      rw [hpi] at hrec
      simp [saveIdem] at hrec
      exact hrec.2.2.symm
    | some id =>
      rw [hpi] at hrec
      by_cases hw : w.addrSaveOk
      · simp only [if_pos hw] at hrec
        simp [saveIdem] at hrec
        exact hrec.2.2.symm
      · simp only [if_neg hw] at hrec
        simp [saveIdem] at hrec
        exact hrec.2.2.symm
  · by_cases h40 : b.length = 40
    · refine ⟨?_, Or.inr h40⟩
      simp only [create_account, if_neg h20, if_pos h40,
        check_absent s k _ hs] at hrec
      cases hpi : p.parseId a with
      | none =>
        rw [hpi] at hrec
        simp [saveIdem] at hrec
        exact hrec.2.2.symm
      | some id =>
        rw [hpi] at hrec
        by_cases hw : w.addrSaveOk
        · simp only [if_pos hw] at hrec
          simp [saveIdem] at hrec
          exact hrec.2.2.symm
        · simp only [if_neg hw] at hrec
          simp [saveIdem] at hrec
          exact hrec.2.2.symm
    · simp only [create_account, if_neg h20, if_neg h40] at hrec
      rw [hs] at hrec
      cases hrec

/-- C3: `make_tx` with no token address returns a native transfer
(`to` = the peer address, `value` = the amount, empty data, gas limit
21000, gas price 20000); with a token address it returns an ERC-20
transfer (`to` = the token contract, value 0, gas limit 70000, gas price
20000, data `0xa9059cbb ‖ pad32(to) ‖ u256be(amount)`). -/
theorem make_tx_spec (toA tok : Address) (v n : Nat) (hlen : toA.length = 20) :
    make_tx toA v n none =
      { toAddr := some toA, nonce := n, data := [], gas := 21000,
        gasPrice := 20000, value := v } ∧
    make_tx toA v n (some tok) =
      { toAddr := some tok, nonce := n,
        data := [0xa9, 0x05, 0x9c, 0xbb] ++ pad32 toA ++ u256be v,
        gas := 70000, gasPrice := 20000, value := 0 } := by
  constructor
  · rfl
  · show RawTransaction.mk _ _ _ _ _ _ = _
    simp only [make_tx, ethabiEncode, encodeToken, List.map_cons, List.map_nil,
      List.flatten, List.append_nil, pad32, hlen]
    rfl

/-- Witness for C3 at the repository's ERC-20 test vector address. -/
theorem make_tx_spec_witness :
    make_tx addrC 100 1 none =
      { toAddr := some addrC, nonce := 1, data := [], gas := 21000,
        gasPrice := 20000, value := 100 } ∧
    make_tx addrC 100 1 (some addrC) =
      { toAddr := some addrC, nonce := 1,
        data := [0xa9, 0x05, 0x9c, 0xbb] ++ pad32 addrC ++ u256be 100,
        gas := 70000, gasPrice := 20000, value := 0 } :=
  make_tx_spec addrC addrC 100 1 (by decide)

/-- C1: Idempotent replay — for a mutating request (`create_account` or
`send_money`) with key `k` whose run recorded a terminal `(status, body)`,
any later request with key `k` and the same input hash (the hash of
`account_id ‖ debug(body)`, with the hash function collision-free as
SHA-256 is assumed to be) returns exactly the stored `(status, body)` — a
stored success on the success channel, a stored error on the error
channel — with the stores unchanged and no chain, notifier or
address-store call. -/
theorem idempotent_replay {A Hh : Type} [DecidableEq A] [DecidableEq Hh]
    (p : EngineParams A Hh) (hinj : Function.Injective p.hashFn) :
    (∀ (w w' : World) (s : EngineState A Hh) (a1 a2 : String)
        (b1 b2 : List Nat) (k : String) (st : Nat) (bd : String) (h : Hh),
      s.idem k = none →
      (create_account p w s a1 b1 (some k)).state.idem k = some (st, bd, h) →
      p.hashFn (a2 ++ debugVecU8 b2) = h →
      create_account p w' (create_account p w s a1 b1 (some k)).state a2 b2
          (some k) =
        ⟨replayOutcome st bd, (create_account p w s a1 b1 (some k)).state,
          [.idemLookup (some k)]⟩) ∧
    (∀ (w w' : World) (s : EngineState A Hh) (a1 a2 : String)
        (amt1 amt2 : Nat) (k : String) (st : Nat) (bd : String) (h : Hh),
      s.idem k = none →
      (send_money p w s a1 amt1 (some k)).state.idem k = some (st, bd, h) →
      p.hashFn (a2 ++ debugSettlementData amt2) = h →
      send_money p w' (send_money p w s a1 amt1 (some k)).state a2 amt2
          (some k) =
        ⟨replayOutcome st bd, (send_money p w s a1 amt1 (some k)).state,
          [.idemLookup (some k)]⟩) := by
  constructor
  · intro w w' s a1 a2 b1 b2 k st bd h hs hrec hh
    obtain ⟨hhash, hlen1⟩ :=
      create_account_record_hash p w s a1 b1 k st bd h hs hrec
    have hpre : a2 ++ debugVecU8 b2 = a1 ++ debugVecU8 b1 := by
      apply hinj
      rw [hh, hhash]
    have hri : renderInner b1 = renderInner b2 := (fingerprint_inj hpre).2.symm
    have hb1ne : b1 ≠ [] := by
      intro hnil
      subst hnil
      rcases hlen1 with hl | hl <;> simp at hl
    have hlen12 : b1.length = b2.length := renderInner_length hb1ne hri
    have hlen2 : b2.length = 20 ∨ b2.length = 40 := by
      rcases hlen1 with hl | hl <;> omega
    exact create_account_replay p w' _ a2 b2 k st bd h hlen2 hrec hh
  · intro w w' s a1 a2 amt1 amt2 k st bd h _hs hrec hh
    exact send_money_replay p w' _ a2 amt2 k st bd h hrec hh

/-- Witness for C1: a created account is replayed as `201 "CREATED"` with
state untouched and only the idempotency lookup in the trace. -/
theorem idempotent_replay_witness :
    create_account natParams wOk
        (create_account natParams wOk sEmpty "0" b20 (some "k")).state
        "0" b20 (some "k") =
      ⟨replayOutcome 201 "CREATED",
        (create_account natParams wOk sEmpty "0" b20 (some "k")).state,
        [.idemLookup (some "k")]⟩ :=
  (idempotent_replay natParams (fun _ _ hx => hx)).1 wOk wOk sEmpty "0" "0"
    b20 b20 "k" 201 "CREATED" ("0" ++ debugVecU8 b20) rfl rfl rfl

/-- C2 counterexample: after `create_account` records `201 "CREATED"`
under key `k`, a later `create_account` with the same key, a
different input hash and an invalid-length body answers
`502 "INVALID PAYLOAD LENGTH"`, not the 409 conflict the claim requires
for every request pair with differing hashes. -/
theorem conflict_claim_counterexample :
    (create_account natParams wOk sEmpty "0" b20 (some "k")).state.idem "k" =
      some (201, "CREATED", "0" ++ debugVecU8 b20) ∧
    natParams.hashFn ("0" ++ debugVecU8 []) ≠ "0" ++ debugVecU8 b20 ∧
    (create_account natParams wOk
        (create_account natParams wOk sEmpty "0" b20 (some "k")).state
        "0" [] (some "k")).outcome = .err 502 "INVALID PAYLOAD LENGTH" ∧
    (create_account natParams wOk
        (create_account natParams wOk sEmpty "0" b20 (some "k")).state
        "0" [] (some "k")).outcome ≠
      .err 409 "Provided idempotency key is tied to other input" := by
  exact ⟨rfl, by decide, rfl, by decide⟩

/-- C2 amended: when a record with hash `h` is stored under key `k`, a
later `send_money` — or a later `create_account` whose body passes the
20/40-byte length guard — with a different input hash answers
`409 "Provided idempotency key is tied to other input"` and leaves the
state (so the stored record) unchanged; a later `create_account` whose
body fails the length guard answers `502 "INVALID PAYLOAD LENGTH"`
before the idempotency lookup, also leaving the state unchanged. -/
theorem conflict_detection_amended {A Hh : Type} [DecidableEq A]
    [DecidableEq Hh] (p : EngineParams A Hh) (w : World)
    (s : EngineState A Hh) (a k : String) (st : Nat) (bd : String) (h : Hh)
    (hs : s.idem k = some (st, bd, h)) :
    (∀ amt, p.hashFn (a ++ debugSettlementData amt) ≠ h →
      send_money p w s a amt (some k) =
        ⟨.err 409 "Provided idempotency key is tied to other input", s,
          [.idemLookup (some k)]⟩) ∧
    (∀ b : List Nat, (b.length = 20 ∨ b.length = 40) →
      p.hashFn (a ++ debugVecU8 b) ≠ h →
      create_account p w s a b (some k) =
        ⟨.err 409 "Provided idempotency key is tied to other input", s,
          [.idemLookup (some k)]⟩) ∧
    (∀ b : List Nat, ¬(b.length = 20 ∨ b.length = 40) →
      create_account p w s a b (some k) =
        ⟨.err 502 "INVALID PAYLOAD LENGTH", s, []⟩) := by
  refine ⟨?_, ?_, ?_⟩
  · intro amt hne
    exact send_money_conflict p w s a amt k st bd h hs hne
  · intro b hlen hne
    exact create_account_conflict p w s a b k st bd h hlen hs hne
  · intro b hlen
    exact invalid_payload_guard p w s a k b (by omega) (by omega)

/-- Witness for the amended C2: a `send_money` under the key of a stored
create-account record answers the 409 conflict and leaves the state
unchanged. -/
theorem conflict_detection_amended_witness :
    send_money natParams wOk
        (create_account natParams wOk sEmpty "0" b20 (some "k")).state
        "0" 42 (some "k") =
      ⟨.err 409 "Provided idempotency key is tied to other input",
        (create_account natParams wOk sEmpty "0" b20 (some "k")).state,
        [.idemLookup (some "k")]⟩ :=
  (conflict_detection_amended natParams wOk
      (create_account natParams wOk sEmpty "0" b20 (some "k")).state
      "0" "k" 201 "CREATED" ("0" ++ debugVecU8 b20) rfl).1 42 (by decide)

/-- C4 (code bug): with a valid existing account, a failing chain call
(nonce fetch or broadcast) makes `send_money` panic out of the
`unwrap()` calls in `settle_to` instead of answering
`502 "Error connecting to the blockchain."`, and nothing is recorded in
the idempotency store for the key. -/
theorem send_money_chain_failure_panics :
    send_money natParams wNonceFail sAcct "0" 100 (some "k") =
      ⟨.panic, sAcct, [.idemLookup (some "k"), .addrLoad 0, .chainNonce]⟩ ∧
    (send_money natParams wBroadcastFail sAcct "0" 100 (some "k")).outcome =
      .panic ∧
    (send_money natParams wNonceFail sAcct "0" 100 (some "k")).state.idem "k" =
      none ∧
    (send_money natParams wNonceFail sAcct "0" 100 (some "k")).outcome ≠
      .err 502 "Error connecting to the blockchain." := by
  exact ⟨rfl, rfl, rfl, by decide⟩

/-- C5 (code bug): a fully successful settlement run produces the chain
calls and the idempotency save but performs no notifier POST at all —
the notification block is commented out in the source. -/
theorem settle_success_no_notifier :
    (send_money natParams wOk sAcct "0" 100 (some "k")).outcome =
      .ok 200 "OK" ∧
    (send_money natParams wOk sAcct "0" 100 (some "k")).events =
      [.idemLookup (some "k"), .addrLoad 0, .chainNonce,
       .signCall txNative 1, .chainBroadcast txNative 1,
       .idemSave (some "k") ("0" ++ debugSettlementData 100) 200 "OK"] ∧
    (send_money natParams wOk sAcct "0" 100 (some "k")).events.filter
      isNotifierEvent = [] := by
  exact ⟨rfl, rfl, rfl⟩

/-- C6 counterexample: with configured chain id 5 the settlement still
signs with chain id 1 — the trace holds a sign call with chain id 1 and
no sign call with the configured chain id. -/
theorem chain_id_claim_counterexample :
    params5.chainId = 5 ∧
    (settle_to params5 wOk b20 100 none).2 =
      [.chainNonce, .signCall txNative 1, .chainBroadcast txNative 1] ∧
    Event.signCall txNative params5.chainId ∉
      (settle_to params5 wOk b20 100 none).2 := by
  exact ⟨rfl, rfl, by decide⟩

/-- C6 amended: `settle_to` signs the transaction built by `make_tx` with
the literal chain id 1, whatever the engine's configured `chain_id` is
(the EIP-155 signature production itself is delegated to the external
signing library and is not part of this code). -/
theorem settle_to_signs_chain_id_one {A Hh : Type} (p : EngineParams A Hh)
    (w : World) (toA : Address) (amt : Nat) (tok : Option Address) :
    (∀ n, w.nonceRes = some n →
      (settle_to p w toA amt tok).2 =
        [.chainNonce, .signCall (make_tx toA amt n tok) 1,
         .chainBroadcast (make_tx toA amt n tok) 1]) ∧
    (w.nonceRes = none → (settle_to p w toA amt tok).2 = [.chainNonce]) := by
  constructor
  · intro n hn
    simp only [settle_to, hn]
    by_cases hb : w.broadcastOk <;> simp [hb]
  · intro hn
    simp [settle_to, hn]

/-- Witness for the amended C6 with configured chain id 5 and nonce 3. -/
theorem settle_to_signs_chain_id_one_witness :
    (settle_to params5 wOk b20 100 none).2 =
      [.chainNonce, .signCall (make_tx b20 100 3 none) 1,
       .chainBroadcast (make_tx b20 100 3 none) 1] :=
  (settle_to_signs_chain_id_one params5 wOk b20 100 none).1 3 rfl

/-- C7 counterexample: a body that is not valid JSON (nor 20 or 40 bytes
long) answers `502 "INVALID PAYLOAD LENGTH"`, not the
`400 "Unable to parse message body"` the claim requires on body parse
failure. -/
theorem create_account_json_claim_counterexample :
    (create_account natParams wOk sEmpty "0" [] (some "k")).outcome =
      .err 502 "INVALID PAYLOAD LENGTH" ∧
    (create_account natParams wOk sEmpty "0" [] (some "k")).outcome ≠
      .err 400 "Unable to parse message body" := by
  exact ⟨rfl, by decide⟩

/-- C7 amended: `create_account` reads its body as raw bytes, not JSON —
20 bytes are the own address, 40 bytes own then token address, any other
length answers `502 "INVALID PAYLOAD LENGTH"`; with a fresh key, an
unparseable account id answers `400 "Unable to parse account"`
(recorded), an address-store save failure answers 400 with the
descriptive `Error creating account` message (recorded), and success
answers `201 "CREATED"` (recorded, with the addresses saved). -/
theorem create_account_outcomes_amended {A Hh : Type} [DecidableEq A]
    [DecidableEq Hh] (p : EngineParams A Hh) (w : World)
    (s : EngineState A Hh) (a k : String) (hk : s.idem k = none) :
    (∀ b : List Nat, ¬(b.length = 20 ∨ b.length = 40) →
      create_account p w s a b (some k) =
        ⟨.err 502 "INVALID PAYLOAD LENGTH", s, []⟩) ∧
    (∀ b : List Nat, (b.length = 20 ∨ b.length = 40) → p.parseId a = none →
      (create_account p w s a b (some k)).outcome =
        .err 400 "Unable to parse account" ∧
      (create_account p w s a b (some k)).state.idem k =
        some (400, "Unable to parse account", p.hashFn (a ++ debugVecU8 b))) ∧
    (∀ (b : List Nat) (id : A), (b.length = 20 ∨ b.length = 40) →
      p.parseId a = some id → w.addrSaveOk = false →
      (create_account p w s a b (some k)).outcome =
        .err 400 ("Error creating account: " ++ p.showId id ++ ", " ++
          debugAddresses (createBodyData b)) ∧
      (create_account p w s a b (some k)).state.idem k =
        some (400, "Error creating account: " ++ p.showId id ++ ", " ++
          debugAddresses (createBodyData b), p.hashFn (a ++ debugVecU8 b))) ∧
    (∀ (b : List Nat) (id : A), (b.length = 20 ∨ b.length = 40) →
      p.parseId a = some id → w.addrSaveOk = true →
      (create_account p w s a b (some k)).outcome = .ok 201 "CREATED" ∧
      (create_account p w s a b (some k)).state.idem k =
        some (201, "CREATED", p.hashFn (a ++ debugVecU8 b)) ∧
      (create_account p w s a b (some k)).state.addr id =
        some (createBodyData b)) := by
  refine ⟨?_, ?_, ?_, ?_⟩
  · intro b hlen
    exact invalid_payload_guard p w s a k b (by omega) (by omega)
  · intro b hlen hpi
    rcases hlen with hl | hl
    · simp [create_account, if_pos hl, check_absent s k _ hk, hpi, saveIdem]
    · have h20 : ¬ b.length = 20 := by omega
      simp [create_account, if_neg h20, if_pos hl, check_absent s k _ hk,
        hpi, saveIdem]
  · intro b id hlen hpi hw
    rcases hlen with hl | hl
    · simp [create_account, if_pos hl, check_absent s k _ hk, hpi, hw,
        saveIdem, createBodyData]
    · have h20 : ¬ b.length = 20 := by omega
      simp [create_account, if_neg h20, if_pos hl, check_absent s k _ hk,
        hpi, hw, saveIdem, createBodyData]
  · intro b id hlen hpi hw
    rcases hlen with hl | hl
    · simp [create_account, if_pos hl, check_absent s k _ hk, hpi, hw,
        saveIdem, createBodyData]
    · have h20 : ¬ b.length = 20 := by omega
      simp [create_account, if_neg h20, if_pos hl, check_absent s k _ hk,
        hpi, hw, saveIdem, createBodyData]

/-- Witness for the amended C7: successful creation of account `0`. -/
theorem create_account_outcomes_amended_witness :
    (create_account natParams wOk sEmpty "0" b20 (some "k")).outcome =
      .ok 201 "CREATED" ∧
    (create_account natParams wOk sEmpty "0" b20 (some "k")).state.idem "k" =
      some (201, "CREATED", natParams.hashFn ("0" ++ debugVecU8 b20)) ∧
    (create_account natParams wOk sEmpty "0" b20 (some "k")).state.addr 0 =
      some (createBodyData b20) :=
  (create_account_outcomes_amended natParams wOk sEmpty "0" "k" rfl).2.2.2
    b20 0 (by decide) (by decide) rfl

/-- C8 counterexample: `receive_message` with an idempotency key and a
valid account answers `200 "OK"` with no idempotency lookup and no save —
its trace holds only the address-store read and its state is unchanged. -/
theorem seven_state_claim_counterexample :
    receive_message natParams sAcct "0" b20 (some "k") =
      ⟨.ok 200 "OK", sAcct, [.addrLoad 0]⟩ ∧
    ([.addrLoad 0] : List (Event Nat String)).filter isIdemEvent = [] := by
  exact ⟨rfl, rfl⟩

/-- C8 amended: `send_money`, and `create_account` once its body passes
the 20/40-byte length guard, perform the idempotency lookup first and
record every returned WORK outcome as `(status, body, input_hash)` under
the key; `create_account` with an invalid-length body answers 502 before
any idempotency access; a chain failure makes `send_money` panic without
recording; and `receive_message` ignores its idempotency key entirely —
no lookup and no save. -/
theorem idempotency_pattern_amended {A Hh : Type} [DecidableEq A]
    [DecidableEq Hh] (p : EngineParams A Hh) (w : World)
    (s : EngineState A Hh) (a k : String) :
    (∀ amt, (send_money p w s a amt (some k)).events.head? =
      some (.idemLookup (some k))) ∧
    (∀ amt, s.idem k = none →
      recordsOutcome (send_money p w s a amt (some k)) k
        (p.hashFn (a ++ debugSettlementData amt))) ∧
    (∀ b : List Nat, (b.length = 20 ∨ b.length = 40) →
      (create_account p w s a b (some k)).events.head? =
        some (.idemLookup (some k))) ∧
    (∀ b : List Nat, (b.length = 20 ∨ b.length = 40) → s.idem k = none →
      recordsOutcome (create_account p w s a b (some k)) k
        (p.hashFn (a ++ debugVecU8 b))) ∧
    (∀ b : List Nat, ¬(b.length = 20 ∨ b.length = 40) →
      (create_account p w s a b (some k)).events = [] ∧
      (create_account p w s a b (some k)).state = s) ∧
    (∀ (b : List Nat) (key : Option String),
      (receive_message p s a b key).state.idem = s.idem ∧
      (receive_message p s a b key).events.filter isIdemEvent = []) := by
  refine ⟨?_, ?_, ?_, ?_, ?_, ?_⟩
  · intro amt
    simp only [send_money]
    cases hch : check_idempotency s (some k)
        (p.hashFn (a ++ debugSettlementData amt)) with
    | errResp st bd => rfl
    | replay st bd => rfl
    | proceed =>
      rcases hla : load_account p s a with ⟨lr, ev⟩
      cases lr with
      | fail msg => rfl
      | ok id addrs =>
        dsimp only
        rcases hst : settle_to p w addrs.1 amt addrs.2 with ⟨o, ev'⟩
        cases o <;> rfl
  · intro amt hs st bd hor
    simp only [send_money, check_absent s k _ hs] at hor ⊢
    rcases hla : load_account p s a with ⟨lr, ev⟩
    rw [hla] at hor
    cases lr with
    | fail msg =>
      dsimp only at hor ⊢
      rcases hor with hor | hor
      · cases hor
      · rw [Outcome.err.injEq] at hor
        obtain ⟨h1, h2⟩ := hor
        subst h1
        subst h2
        exact saveIdem_self s k _ 400 _
    | ok id addrs =>
      dsimp only at hor ⊢
      rcases hst : settle_to p w addrs.1 amt addrs.2 with ⟨o, ev'⟩
      rw [hst] at hor
      cases o with
      | none =>
        dsimp only at hor
        rcases hor with hor | hor <;> cases hor
      | some u =>
        dsimp only at hor ⊢
        rcases hor with hor | hor
        · rw [Outcome.ok.injEq] at hor
          obtain ⟨h1, h2⟩ := hor
          subst h1
          subst h2
          exact saveIdem_self s k _ 200 _
        · cases hor
  · intro b hlen
    rcases hlen with hl | hl
    · simp only [create_account, if_pos hl]
      cases hch : check_idempotency s (some k)
          (p.hashFn (a ++ debugVecU8 b)) with
      | errResp st bd => rfl
      | replay st bd => rfl
      | proceed =>
        cases hpi : p.parseId a with
        | none => rfl
        | some id => by_cases hw : w.addrSaveOk <;> simp [hw, saveIdem]
    · have h20 : ¬ b.length = 20 := by omega
      simp only [create_account, if_neg h20, if_pos hl]
      cases hch : check_idempotency s (some k)
          (p.hashFn (a ++ debugVecU8 b)) with
      | errResp st bd => rfl
      | replay st bd => rfl
      | proceed =>
        cases hpi : p.parseId a with
        | none => rfl
        | some id => by_cases hw : w.addrSaveOk <;> simp [hw, saveIdem]
  · intro b hlen hs st bd hor
    rcases hlen with hl | hl
    · simp only [create_account, if_pos hl, check_absent s k _ hs] at hor ⊢
      cases hpi : p.parseId a with
      | none =>
        rw [hpi] at hor
        dsimp only at hor ⊢
        rcases hor with hor | hor
        · cases hor
        · rw [Outcome.err.injEq] at hor
          obtain ⟨h1, h2⟩ := hor
          subst h1
          subst h2
          exact saveIdem_self s k _ 400 _
      | some id =>
        rw [hpi] at hor
        dsimp only at hor ⊢
        by_cases hw : w.addrSaveOk
        · rw [if_pos hw] at hor ⊢
          dsimp only at hor ⊢
          rcases hor with hor | hor
          · rw [Outcome.ok.injEq] at hor
            obtain ⟨h1, h2⟩ := hor
            subst h1
            subst h2
            exact saveIdem_self _ k _ 201 _
          · cases hor
        · rw [if_neg hw] at hor ⊢
          dsimp only at hor ⊢
          rcases hor with hor | hor
          · cases hor
          · rw [Outcome.err.injEq] at hor
            obtain ⟨h1, h2⟩ := hor
            subst h1
            subst h2
            exact saveIdem_self s k _ 400 _
    · have h20 : ¬ b.length = 20 := by omega
      simp only [create_account, if_neg h20, if_pos hl,
        check_absent s k _ hs] at hor ⊢
      cases hpi : p.parseId a with
      | none =>
        rw [hpi] at hor
        dsimp only at hor ⊢
        rcases hor with hor | hor
        · cases hor
        · rw [Outcome.err.injEq] at hor
          obtain ⟨h1, h2⟩ := hor
          subst h1
          subst h2
          exact saveIdem_self s k _ 400 _
      | some id =>
        rw [hpi] at hor
        dsimp only at hor ⊢
        by_cases hw : w.addrSaveOk
        · rw [if_pos hw] at hor ⊢
          dsimp only at hor ⊢
          rcases hor with hor | hor
          · rw [Outcome.ok.injEq] at hor
            obtain ⟨h1, h2⟩ := hor
            subst h1
            subst h2
            exact saveIdem_self _ k _ 201 _
          · cases hor
        · rw [if_neg hw] at hor ⊢
          dsimp only at hor ⊢
          rcases hor with hor | hor
          · cases hor
          · rw [Outcome.err.injEq] at hor
            obtain ⟨h1, h2⟩ := hor
            subst h1
            subst h2
            exact saveIdem_self s k _ 400 _
  · intro b hlen
    constructor <;>
      rw [invalid_payload_guard p w s a k b (by omega) (by omega)]
  · intro b key
    simp only [receive_message]
    rcases hla : load_account p s a with ⟨lr, ev⟩
    have hev : ev = [] ∨ ∃ id, ev = [.addrLoad id] := by
      simp only [load_account] at hla
      cases hpi : p.parseId a with
      | none =>
        rw [hpi] at hla
        cases hla
        exact Or.inl rfl
      | some id =>
        rw [hpi] at hla
        dsimp only at hla
        cases haddr : s.addr id with
        | none =>
          rw [haddr] at hla
          cases hla
          exact Or.inr ⟨id, rfl⟩
        | some addrs =>
          rw [haddr] at hla
          cases hla
          exact Or.inr ⟨id, rfl⟩
    have hfil : ev.filter isIdemEvent = [] := by
      rcases hev with hev | ⟨id, hev⟩ <;> subst hev <;> rfl
    cases lr with
    | fail msg => exact ⟨rfl, hfil⟩
    | ok id addrs => exact ⟨rfl, hfil⟩

/-- Witness for the amended C8: with a fresh key, both mutating endpoints
start with the idempotency lookup and record the successful outcome;
`receive_message` leaves the idempotency store untouched. -/
theorem idempotency_pattern_amended_witness :
    (send_money natParams wOk sAcct "0" 100 (some "k")).events.head? =
      some (.idemLookup (some "k")) ∧
    (send_money natParams wOk sAcct "0" 100 (some "k")).state.idem "k" =
      some (200, "OK", natParams.hashFn ("0" ++ debugSettlementData 100)) ∧
    (receive_message natParams sAcct "0" b20 (some "k")).state.idem = sAcct.idem :=
  ⟨(idempotency_pattern_amended natParams wOk sAcct "0" "k").1 100,
   (idempotency_pattern_amended natParams wOk sAcct "0" "k").2.1 100 rfl 200
     "OK" (Or.inl rfl),
   ((idempotency_pattern_amended natParams wOk sAcct "0" "k").2.2.2.2.2 b20
     (some "k")).1⟩

/-- C9: a `create_account` body whose length is not 20 or 40 bytes
answers `502 "INVALID PAYLOAD LENGTH"` before the idempotency lookup is
reached: the trace is empty (no idempotency read or write) and the state
is unchanged, even when an idempotency key is supplied. -/
theorem invalid_payload_skips_idempotency {A Hh : Type} [DecidableEq A]
    [DecidableEq Hh] (p : EngineParams A Hh) (w : World)
    (s : EngineState A Hh) (a k : String) (b : List Nat)
    (h20 : b.length ≠ 20) (h40 : b.length ≠ 40) :
    create_account p w s a b (some k) =
      ⟨.err 502 "INVALID PAYLOAD LENGTH", s, []⟩ :=
  invalid_payload_guard p w s a k b h20 h40

/-- Witness for C9 at the empty body. -/
theorem invalid_payload_skips_idempotency_witness :
    create_account natParams wOk sEmpty "0" [] (some "k") =
      ⟨.err 502 "INVALID PAYLOAD LENGTH", sEmpty, []⟩ :=
  invalid_payload_skips_idempotency natParams wOk sEmpty "0" "k" []
    (by decide) (by decide)

/-- C10: `receive_message` is independent of the request body — any two
bodies under the same account and key give identical results — and
answers `200 "OK"` exactly when the account id parses and its addresses
load, `400` with an `Error loading account` message otherwise. -/
theorem receive_message_body_independent {A Hh : Type}
    (p : EngineParams A Hh) (s : EngineState A Hh) (a : String)
    (b1 b2 : List Nat) (k : Option String) :
    receive_message p s a b1 k = receive_message p s a b2 k ∧
    (p.parseId a = none →
      receive_message p s a b1 k =
        ⟨.err 400 ("Error loading account " ++
          debugString "Unable to parse account"), s, []⟩) ∧
    (∀ id : A, p.parseId a = some id → s.addr id = none →
      receive_message p s a b1 k =
        ⟨.err 400 ("Error loading account " ++
          debugString ("Error getting account: " ++ p.showId id)), s,
          [.addrLoad id]⟩) ∧
    (∀ (id : A) (addrs : Addresses), p.parseId a = some id →
      s.addr id = some addrs →
      receive_message p s a b1 k = ⟨.ok 200 "OK", s, [.addrLoad id]⟩) := by
  refine ⟨rfl, ?_, ?_, ?_⟩
  · intro hpi
    simp [receive_message, load_account, hpi]
  · intro id hpi haddr
    simp [receive_message, load_account, hpi, haddr]
  · intro id addrs hpi haddr
    simp [receive_message, load_account, hpi, haddr]

/-- Witness for C10: two different bodies give the identical `200 "OK"`
response for the existing account `0`. -/
theorem receive_message_body_independent_witness :
    receive_message natParams sAcct "0" [1] (some "k") =
      receive_message natParams sAcct "0" [2, 3] (some "k") ∧
    receive_message natParams sAcct "0" [1] (some "k") =
      ⟨.ok 200 "OK", sAcct, [.addrLoad 0]⟩ :=
  ⟨(receive_message_body_independent natParams sAcct "0" [1] [2, 3]
      (some "k")).1,
   (receive_message_body_independent natParams sAcct "0" [1] [2, 3]
      (some "k")).2.2.2 0 (b20, none) rfl rfl⟩

end EthEngine
